import Mathlib

/-!
Shallow embedding of the LeaseFlow / ShareWheel repository pieces that the
specification's claims are about:

* the haversine route-matching filter in
  `src/components/routes/FindRoutes.tsx` (`calculateDistance`,
  `handleFindRoutes`, `handleSendRequest`);
* the Stripe webhook handler in the route file captured at
  `src/app/auth/layout.tsx` (the `POST` function, its four event branches,
  and its end-date computation);
* the session-gating `middleware` in `middleware.ts`.

JavaScript `Date` month/year arithmetic is modelled over a calendar-date
record with explicit overflow normalisation; machine floats in the
haversine code are modelled over the reals; the Supabase database is
modelled as explicit row lists with error-injection flags standing for
database write failures.
-/

namespace LeaseFlow

/-! ## JavaScript calendar dates

The webhook handler computes subscription end dates with
`endDate.setMonth(endDate.getMonth() + k)` and
`endDate.setFullYear(endDate.getFullYear() + 1)`.  A JS `Date` normalises
out-of-range fields: setting the month keeps the day-of-month, and a
day-of-month larger than the length of the resulting month overflows into
the following month (Jan 31 + 1 month = Mar 3 in a non-leap year).
`month` is 0-indexed, as in JS (`0` = January, `11` = December). -/

structure JSDate where
  year : Nat
  month : Nat
  day : Nat
deriving DecidableEq, Repr

/-- Gregorian leap-year rule used by JS `Date`. -/
def isLeapYear (y : Nat) : Bool :=
  y % 4 == 0 && (y % 100 != 0 || y % 400 == 0)

/-- Number of days in 0-indexed month `m` of year `y`. -/
def daysInMonth (y m : Nat) : Nat :=
  if m = 1 then (if isLeapYear y then 29 else 28)
  else if m = 3 ∨ m = 5 ∨ m = 8 ∨ m = 10 then 30
  else 31

/-- Normalisation performed by a JS `Date` after a field update: a month
count `m` beyond 11 rolls into later years, and a day-of-month beyond the
length of the resulting month overflows into the following month.  (For
the day counts a real `Date` carries, `1 ≤ d ≤ 31`, one overflow step
suffices.) -/
def normalizeJS (y m d : Nat) : JSDate :=
  let y1 := y + m / 12
  let m1 := m % 12
  if d ≤ daysInMonth y1 m1 then ⟨y1, m1, d⟩
  else
    let d2 := d - daysInMonth y1 m1
    ⟨y1 + (m1 + 1) / 12, (m1 + 1) % 12, d2⟩

/-- JS `date.setMonth(date.getMonth() + k)`. -/
def setMonthAdd (t : JSDate) (k : Nat) : JSDate :=
  normalizeJS t.year (t.month + k) t.day

/-- JS `date.setFullYear(date.getFullYear() + k)`. -/
def setFullYearAdd (t : JSDate) (k : Nat) : JSDate :=
  normalizeJS (t.year + k) t.month t.day

/-- End-date computation of the webhook handler's
`checkout.session.completed` branch (and of the test subscription
endpoint): monthly adds one month via `setMonth`, quarterly three months,
yearly one year via `setFullYear`; any other plan type takes no branch and
leaves the end date equal to the start date. -/
def computeEndDate (planType : String) (startDate : JSDate) : JSDate :=
  if planType = "monthly" then setMonthAdd startDate 1
  else if planType = "quarterly" then setMonthAdd startDate 3
  else if planType = "yearly" then setFullYearAdd startDate 1
  else startDate

/-- Spec-side definition, following the spec's words only: "T plus k
calendar months" keeps the day-of-month, clamping to the last day of the
target month when that day does not exist there (the usual calendar
reading of month addition, e.g. Jan 31 + 1 month = Feb 28). -/
def specPlusCalendarMonths (t : JSDate) (k : Nat) : JSDate :=
  let total := t.year * 12 + t.month + k
  ⟨total / 12, total % 12, min t.day (daysInMonth (total / 12) (total % 12))⟩

/-- Spec-side definition: "T plus k calendar years", day clamped to the
target month's length (Feb 29 + 1 year = Feb 28). -/
def specPlusCalendarYears (t : JSDate) (k : Nat) : JSDate :=
  ⟨t.year + k, t.month, min t.day (daysInMonth (t.year + k) t.month)⟩

/-- Spec-side end-date computation: monthly = T plus one calendar month,
quarterly = T plus three calendar months, yearly = T plus one calendar
year. -/
def specEndDate (planType : String) (t : JSDate) : JSDate :=
  if planType = "monthly" then specPlusCalendarMonths t 1
  else if planType = "quarterly" then specPlusCalendarMonths t 3
  else if planType = "yearly" then specPlusCalendarYears t 1
  else t

/-! ## Session-gating middleware (`middleware.ts`) -/

/-- The explicitly enumerated public paths of `middleware.ts`. -/
def PUBLIC_PATHS : List String :=
  ["/", "/auth/signin", "/auth/signup", "/auth/forgot-password",
   "/auth/reset-password", "/auth/callback"]

/-- `isPublicPath` of `middleware.ts`: enumerated public paths plus
framework-internal paths. -/
def isPublicPath (pathname : String) : Bool :=
  PUBLIC_PATHS.contains pathname
    || pathname.startsWith "/_next" || pathname.startsWith "/static"
    || pathname == "/favicon.ico"

inductive MiddlewareResult where
  | next
  | redirect (url : String)
deriving DecidableEq, Repr

/-- The `middleware` function of `middleware.ts` over the request path and
whether `supabase.auth.getSession()` yields a session.  Faithful to the
source's control flow: public paths return `next()` before the session is
ever consulted; only afterwards come the signed-in-auth-page redirect and
the unauthenticated redirect to sign-in. -/
def middleware (pathname : String) (hasSession : Bool) : MiddlewareResult :=
  if isPublicPath pathname then .next
  else if hasSession && PUBLIC_PATHS.contains pathname
      && pathname.startsWith "/auth" then
    .redirect "/dashboard"
  else if !hasSession then
    .redirect ("/auth/signin?redirectedFrom=" ++ pathname)
  else .next

/-! ## Route matching (`src/components/routes/FindRoutes.tsx`)

The component's floating-point arithmetic (`Math.sin`, `Math.cos`,
`Math.sqrt`, `Math.atan2`) is modelled over the real numbers. -/

/-- Mathematical `atan2 y x`, the angle of the point `(x, y)`, modelling
JS `Math.atan2(y, x)`. -/
noncomputable def atan2 (y x : ℝ) : ℝ := Complex.arg ⟨x, y⟩

/-- The `a` intermediate of `calculateDistance`:
`sin(dLat/2)*sin(dLat/2) + cos(lat1*π/180)*cos(lat2*π/180)*sin(dLng/2)*sin(dLng/2)`
with `dLat = (lat2-lat1)*π/180` and `dLng = (lng2-lng1)*π/180`. -/
noncomputable def haversineA (lat1 lng1 lat2 lng2 : ℝ) : ℝ :=
  Real.sin ((lat2 - lat1) * (Real.pi / 180) / 2)
      * Real.sin ((lat2 - lat1) * (Real.pi / 180) / 2)
    + Real.cos (lat1 * (Real.pi / 180)) * Real.cos (lat2 * (Real.pi / 180))
      * Real.sin ((lng2 - lng1) * (Real.pi / 180) / 2)
      * Real.sin ((lng2 - lng1) * (Real.pi / 180) / 2)

/-- `calculateDistance` of `FindRoutes.tsx`: haversine distance in km with
Earth radius `R = 6371`, `c = 2 * atan2(sqrt(a), sqrt(1-a))`, result
`R * c`. -/
noncomputable def calculateDistance (lat1 lng1 lat2 lng2 : ℝ) : ℝ :=
  6371 * (2 * atan2 (Real.sqrt (haversineA lat1 lng1 lat2 lng2))
    (Real.sqrt (1 - haversineA lat1 lng1 lat2 lng2)))

/-- Coordinate pair as held in `pickupCoords` / `dropoffCoords` state. -/
structure Coord where
  lat : ℝ
  lng : ℝ

/-- Car-owner profile data attached to a matched route. -/
structure OwnerProfile where
  name : String
  phone : Option String
  vehicle_type : Option String

/-- The `CarOwnerRoute` record fields the matching and request logic
reads (address strings, times and prices not consulted by the matching
predicate are carried as opaque strings/rationals). -/
structure CarOwnerRoute where
  id : String
  car_owner_id : String
  pickup_lat : ℝ
  pickup_lng : ℝ
  dropoff_lat : ℝ
  dropoff_lng : ℝ
  seats_available : ℤ
  price_per_ride : ℚ
  profiles : Option OwnerProfile

/-- The fixed matching threshold `MAX_DEVIATION_KM = 3` of
`handleFindRoutes`. -/
def MAX_DEVIATION_KM : ℝ := 3

open Classical in
/-- The matching step of `handleFindRoutes`: filter the fetched routes to
those whose pickup endpoint is within `MAX_DEVIATION_KM` of the rider's
pickup and whose dropoff endpoint is within `MAX_DEVIATION_KM` of the
rider's dropoff (both comparisons `<=`), then attach each route owner's
profile from the prefetched profiles map. -/
noncomputable def matchRoutes (pickupCoords dropoffCoords : Coord)
    (allRoutes : List CarOwnerRoute)
    (profilesMap : String → Option OwnerProfile) : List CarOwnerRoute :=
  (allRoutes.filter (fun route =>
    decide (calculateDistance pickupCoords.lat pickupCoords.lng
        route.pickup_lat route.pickup_lng ≤ MAX_DEVIATION_KM
      ∧ calculateDistance dropoffCoords.lat dropoffCoords.lng
        route.dropoff_lat route.dropoff_lng ≤ MAX_DEVIATION_KM))).map
    (fun route => { route with profiles := profilesMap route.car_owner_id })

/-! ## Route request creation (`handleSendRequest` of `FindRoutes.tsx`) -/

/-- A row of the `route_requests` table. -/
structure RouteRequestRow where
  requester_id : String
  route_id : String
  status : String
  message : Option String
  requested_seats : ℤ

/-- Outcome of `handleSendRequest`, in source order: early return when no
route is selected; seats-exceed-availability rejection; not signed in;
duplicate-request rejection; insert error; success. -/
inductive SendRequestResult where
  | noRouteSelected
  | seatsUnavailable
  | notSignedIn
  | duplicateRequest
  | insertError
  | requestSent
deriving DecidableEq, Repr

/-- `handleSendRequest` of `FindRoutes.tsx` over the selected route, the
requested seat count, the signed-in user (if any), the message text, an
error-injection flag for the insert, and the current `route_requests`
rows.  Returns the outcome and the new `route_requests` table. -/
def handleSendRequest (selectedRoute : Option CarOwnerRoute)
    (requestedSeats : ℤ) (user : Option String) (requestMessage : String)
    (insertFails : Bool) (route_requests : List RouteRequestRow) :
    SendRequestResult × List RouteRequestRow :=
  match selectedRoute with
  | none => (.noRouteSelected, route_requests)
  | some route =>
    if requestedSeats > route.seats_available then
      (.seatsUnavailable, route_requests)
    else match user with
      | none => (.notSignedIn, route_requests)
      | some uid =>
        if route_requests.any (fun q =>
            q.requester_id == uid && q.route_id == route.id) then
          (.duplicateRequest, route_requests)
        else if insertFails then
          (.insertError, route_requests)
        else
          (.requestSent, route_requests ++
            [⟨uid, route.id, "pending",
              if requestMessage = "" then none else some requestMessage,
              requestedSeats⟩])

/-! ## Stripe webhook handler (`POST` of the webhook route)

Supabase tables are modelled as row lists; the Stripe SDK objects the
handler reads are modelled as explicit payload records, and
`stripe.subscriptions.retrieve` results are part of the event payload.
Database write errors (which supabase-js returns as `error` values, never
throws) are injected through Boolean fault flags: a failed write returns
an error and leaves the table unchanged. -/

/-- A row of the `subscriptions` table. -/
structure SubRow where
  user_id : String
  plan_type : String
  status : String
  start_date : JSDate
  end_date : JSDate
  price : ℚ
deriving DecidableEq, Repr

/-- A row of the `profiles` table (fields the webhook touches). -/
structure ProfileRow where
  id : String
  user_type : String
deriving DecidableEq, Repr

/-- The database state the webhook handler reads and writes. -/
structure DB where
  subscriptions : List SubRow
  profiles : List ProfileRow
deriving DecidableEq, Repr

/-- Fault-injection flags, one per database write the handler performs:
`true` means that write returns an error (and changes nothing). -/
structure DBFaults where
  profileCheck : Bool
  profileInsert : Bool
  subWrite : Bool
  profileUpdate : Bool
  subUpsertUpdated : Bool
  subUpdateExpired : Bool
  subUpsertInvoice : Bool
  subUpdateFailed : Bool
deriving DecidableEq, Repr

/-- The fault-free database. -/
def noFaults : DBFaults :=
  ⟨false, false, false, false, false, false, false, false⟩

/-- JS truthiness of an optional string: `undefined`, `null` and the
empty string are all falsy.  Models guards like `if (!userId)` and
fallbacks like `a || b`. -/
def strTruthy : Option String → Option String
  | none => none
  | some s => if s = "" then none else some s

/-- The fields of a `Stripe.Checkout.Session` the handler reads.
`planPrice` carries the already-parsed value of
`parseFloat(session.metadata?.planPrice || '0')`. -/
structure CheckoutSession where
  mode : String
  client_reference_id : Option String
  metaUserId : Option String
  metaPlanType : Option String
  planPrice : ℚ
deriving DecidableEq, Repr

/-- The fields of a `stripe.subscriptions.retrieve` result the handler
reads: metadata user id, current period bounds (absent/zero timestamps
modelled as `none`, the converted `new Date(ts*1000)` values as dates),
the first item's recurring interval and unit amount in cents. -/
structure RetrievedSub where
  metaUserId : Option String
  current_period_start : Option JSDate
  current_period_end : Option JSDate
  interval : Option String
  unit_amount : Option ℚ
deriving DecidableEq, Repr

/-- The webhook events the handler's `switch` distinguishes.  For the
subscription-updated/deleted branches the event carries the subscription's
metadata user id and processor-reported status together with the
`retrieve` result the branch fetches; the invoice branches carry the
invoice's subscription id and the `retrieve` result. -/
inductive StripeEvent where
  | checkoutSessionCompleted (session : CheckoutSession)
  | customerSubscriptionUpdated (metaUserId : Option String)
      (subStatus : String) (retrieved : RetrievedSub)
  | customerSubscriptionDeleted (metaUserId : Option String)
      (subStatus : String) (retrieved : RetrievedSub)
  | invoicePaymentSucceeded (subscriptionId : Option String)
      (retrieved : RetrievedSub)
  | invoicePaymentFailed (subscriptionId : Option String)
      (retrievedMetaUserId : Option String)
  | otherEvent (name : String)
deriving DecidableEq, Repr

/-- The `event.type` string of each event. -/
def StripeEvent.typeName : StripeEvent → String
  | .checkoutSessionCompleted _ => "checkout.session.completed"
  | .customerSubscriptionUpdated _ _ _ => "customer.subscription.updated"
  | .customerSubscriptionDeleted _ _ _ => "customer.subscription.deleted"
  | .invoicePaymentSucceeded _ _ => "invoice.payment_succeeded"
  | .invoicePaymentFailed _ _ => "invoice.payment_failed"
  | .otherEvent n => n

/-- The handler's HTTP response: an error JSON with a status code, or the
final `{received: true, eventType}` acknowledgment (status 200). -/
inductive WebhookResp where
  | errorResp (status : Nat) (error : String)
  | receivedResp (eventType : String)
deriving DecidableEq, Repr

/-- HTTP status code of a response. -/
def WebhookResp.statusCode : WebhookResp → Nat
  | .errorResp s _ => s
  | .receivedResp _ => 200

/-- Rows of the `subscriptions` table belonging to a user
(`.eq('user_id', userId)`). -/
def subsForUser (l : List SubRow) (u : String) : List SubRow :=
  l.filter (fun r => r.user_id == u)

/-- Supabase `.maybeSingle()` on the user's subscription rows as the
handler consumes it: `data` is the row when exactly one matches; zero
rows give `null`, and two or more give an error whose `data` is also
`null` (the handler destructures only `data`). -/
def maybeSingleSub (l : List SubRow) (u : String) : Option SubRow :=
  match subsForUser l u with
  | [r] => some r
  | _ => none

/-- `.from('subscriptions').update(fields).eq('user_id', userId)`:
rewrite every row of the user with the update `f`. -/
def updateSubs (db : DB) (u : String) (f : SubRow → SubRow) : DB :=
  { db with subscriptions :=
      db.subscriptions.map (fun r => if r.user_id == u then f r else r) }

/-- `.from('subscriptions').insert(row)`. -/
def insertSub (db : DB) (row : SubRow) : DB :=
  { db with subscriptions := db.subscriptions ++ [row] }

/-- `.from('subscriptions').upsert(row, {onConflict: 'user_id'})`:
replace the user's existing row(s), or insert when none exists. -/
def upsertSub (db : DB) (row : SubRow) : DB :=
  if db.subscriptions.any (fun r => r.user_id == row.user_id) then
    { db with subscriptions :=
        db.subscriptions.map (fun r =>
          if r.user_id == row.user_id then row else r) }
  else insertSub db row

/-- Whether a profile row with the given id exists. -/
def profileExists (db : DB) (u : String) : Bool :=
  db.profiles.any (fun p => p.id == u)

/-- `.from('profiles').insert(p)`. -/
def insertProfile (db : DB) (p : ProfileRow) : DB :=
  { db with profiles := db.profiles ++ [p] }

/-- `.from('profiles').update({user_type: ty}).eq('id', userId)`. -/
def updateProfileType (db : DB) (u ty : String) : DB :=
  { db with profiles :=
      db.profiles.map (fun p =>
        if p.id == u then { p with user_type := ty } else p) }

/-- The user id the checkout branch resolves:
`session.client_reference_id || session.metadata?.userId`, with the
subsequent `if (!userId)` guard folded in (so the result is `none` when
both are absent or empty). -/
def resolveUserId (s : CheckoutSession) : Option String :=
  strTruthy s.client_reference_id <|> strTruthy s.metaUserId

/-- The plan type the checkout branch uses:
`session.metadata?.planType || 'monthly'`. -/
def sessionPlanType (s : CheckoutSession) : String :=
  match strTruthy s.metaPlanType with
  | none => "monthly"
  | some p => p

/-- The `checkout.session.completed` branch of the webhook handler.
`now` is the instant `new Date()` produces for `startDate`/`endDate`. -/
def handleCheckoutCompleted (s : CheckoutSession) (now : JSDate)
    (faults : DBFaults) (db : DB) : WebhookResp × DB :=
  if s.mode = "subscription" then
    match resolveUserId s with
    | none => (.errorResp 400 "No user ID found in session", db)
    | some userId =>
      let planType := sessionPlanType s
      let startDate := now
      let endDate := computeEndDate planType now
      let existingProfile := !faults.profileCheck && profileExists db userId
      let db1 :=
        if existingProfile then db
        else if faults.profileInsert then db
        else insertProfile db ⟨userId, "common_user"⟩
      let existingSub := (maybeSingleSub db1.subscriptions userId).isSome
      if faults.subWrite then
        (.errorResp 500 "Failed to update subscription", db1)
      else
        let db2 :=
          if existingSub then
            updateSubs db1 userId (fun r =>
              { r with
                plan_type := planType
                status := "active"
                start_date := startDate
                end_date := endDate
                price := s.planPrice })
          else
            insertSub db1 ⟨userId, planType, "active", startDate, endDate,
              s.planPrice⟩
        let db3 :=
          if faults.profileUpdate then db2
          else updateProfileType db2 userId "car_owner"
        (.receivedResp "checkout.session.completed", db3)
  else (.receivedResp "checkout.session.completed", db)

/-- The shared `customer.subscription.updated` / `deleted` branch.
`eventType` is the event's type string (for the acknowledgment), and the
database-error results of both writes are discarded, as in the source. -/
def handleSubscriptionEvent (metaUserId : Option String)
    (subStatus : String) (retrieved : RetrievedSub) (eventType : String)
    (now : JSDate) (faults : DBFaults) (db : DB) : WebhookResp × DB :=
  match strTruthy metaUserId with
  | none => (.receivedResp eventType, db)
  | some userId =>
    if subStatus = "active" || subStatus = "trialing" then
      let startDate := retrieved.current_period_start.getD now
      let endDate := retrieved.current_period_end.getD now
      let planType := (strTruthy retrieved.interval).getD "monthly"
      let price := (retrieved.unit_amount.getD 0) / 100
      let db1 :=
        if faults.subUpsertUpdated then db
        else upsertSub db ⟨userId, planType, "active", startDate, endDate,
          price⟩
      (.receivedResp eventType, db1)
    else
      let db1 :=
        if faults.subUpdateExpired then db
        else updateSubs db userId (fun r => { r with status := "expired" })
      (.receivedResp eventType, db1)

/-- The `invoice.payment_succeeded` branch: when the invoice carries a
subscription id, retrieve it and, when its metadata carries a user id,
upsert the local record to active (write error discarded). -/
def handleInvoiceSucceeded (subscriptionId : Option String)
    (retrieved : RetrievedSub) (now : JSDate) (faults : DBFaults)
    (db : DB) : WebhookResp × DB :=
  match strTruthy subscriptionId with
  | none => (.receivedResp "invoice.payment_succeeded", db)
  | some _ =>
    match strTruthy retrieved.metaUserId with
    | none => (.receivedResp "invoice.payment_succeeded", db)
    | some userId =>
      let startDate := retrieved.current_period_start.getD now
      let endDate := retrieved.current_period_end.getD now
      let planType := (strTruthy retrieved.interval).getD "monthly"
      let price := (retrieved.unit_amount.getD 0) / 100
      let db1 :=
        if faults.subUpsertInvoice then db
        else upsertSub db ⟨userId, planType, "active", startDate, endDate,
          price⟩
      (.receivedResp "invoice.payment_succeeded", db1)

/-- The `invoice.payment_failed` branch: mark the user's subscription
expired (write error discarded). -/
def handleInvoiceFailed (subscriptionId : Option String)
    (retrievedMetaUserId : Option String) (faults : DBFaults) (db : DB) :
    WebhookResp × DB :=
  match strTruthy subscriptionId with
  | none => (.receivedResp "invoice.payment_failed", db)
  | some _ =>
    match strTruthy retrievedMetaUserId with
    | none => (.receivedResp "invoice.payment_failed", db)
    | some userId =>
      let db1 :=
        if faults.subUpdateFailed then db
        else updateSubs db userId (fun r => { r with status := "expired" })
      (.receivedResp "invoice.payment_failed", db1)

/-- The request-level inputs of one `POST` invocation: whether the
webhook secret env var is set, whether the `stripe-signature` header is
present, whether `constructEvent` verifies it, the (verified) event, the
current instant and the injected database faults. -/
structure WebhookInput where
  secretConfigured : Bool
  signaturePresent : Bool
  signatureValid : Bool
  event : StripeEvent
  now : JSDate
  faults : DBFaults
deriving DecidableEq, Repr

/-- The webhook `POST` handler: missing secret gives 500; missing header
gives 400; signature verification failure gives 400; otherwise the event
branch runs and the handler ends with the
`{received: true, eventType}` acknowledgment built into each branch. -/
def webhookPOST (inp : WebhookInput) (db : DB) : WebhookResp × DB :=
  if !inp.secretConfigured then
    (.errorResp 500 "Webhook secret not configured", db)
  else if !inp.signaturePresent then
    (.errorResp 400 "No signature found", db)
  else if !inp.signatureValid then
    (.errorResp 400 "Webhook Error", db)
  else
    match inp.event with
    | .checkoutSessionCompleted s =>
      handleCheckoutCompleted s inp.now inp.faults db
    | .customerSubscriptionUpdated mu st r =>
      handleSubscriptionEvent mu st r "customer.subscription.updated"
        inp.now inp.faults db
    | .customerSubscriptionDeleted mu st r =>
      handleSubscriptionEvent mu st r "customer.subscription.deleted"
        inp.now inp.faults db
    | .invoicePaymentSucceeded sid r =>
      handleInvoiceSucceeded sid r inp.now inp.faults db
    | .invoicePaymentFailed sid mu =>
      handleInvoiceFailed sid mu inp.faults db
    | .otherEvent n => (.receivedResp n, db)

/-! ## Theorems -/

/-- C7: the implemented haversine distance is symmetric in its two
coordinate pairs. -/
theorem calculateDistance_symm (lat1 lng1 lat2 lng2 : ℝ) :
    calculateDistance lat1 lng1 lat2 lng2
      = calculateDistance lat2 lng2 lat1 lng1 := by
  have hA : haversineA lat2 lng2 lat1 lng1 = haversineA lat1 lng1 lat2 lng2 := by
    unfold haversineA
    have e1 : (lat1 - lat2) * (Real.pi / 180) / 2
        = -((lat2 - lat1) * (Real.pi / 180) / 2) := by ring
    have e2 : (lng1 - lng2) * (Real.pi / 180) / 2
        = -((lng2 - lng1) * (Real.pi / 180) / 2) := by ring
    rw [e1, e2, Real.sin_neg, Real.sin_neg]
    ring
  unfold calculateDistance
  rw [hA]

/-- C1: a route is in the match result exactly when it arises from a
fetched candidate whose pickup endpoint is within 3 km of the rider's
pickup and whose dropoff endpoint is within 3 km of the rider's dropoff,
both boundaries inclusive (the comparisons are non-strict), with the
owner's profile attached. -/
theorem mem_matchRoutes_iff (pickupCoords dropoffCoords : Coord)
    (allRoutes : List CarOwnerRoute)
    (profilesMap : String → Option OwnerProfile) (r : CarOwnerRoute) :
    r ∈ matchRoutes pickupCoords dropoffCoords allRoutes profilesMap ↔
      ∃ r0 ∈ allRoutes,
        calculateDistance pickupCoords.lat pickupCoords.lng
          r0.pickup_lat r0.pickup_lng ≤ 3 ∧
        calculateDistance dropoffCoords.lat dropoffCoords.lng
          r0.dropoff_lat r0.dropoff_lng ≤ 3 ∧
        r = { r0 with profiles := profilesMap r0.car_owner_id } := by
  simp only [matchRoutes, MAX_DEVIATION_KM, List.mem_map, List.mem_filter,
    decide_eq_true_eq]
  constructor
  · rintro ⟨r0, ⟨hr0, h1, h2⟩, rfl⟩
    exact ⟨r0, hr0, h1, h2, rfl⟩
  · rintro ⟨r0, hr0, h1, h2, rfl⟩
    exact ⟨r0, ⟨hr0, h1, h2⟩, rfl⟩

/-- C8: when the requested seat count exceeds the selected route's
available seats, `handleSendRequest` rejects before any insert and the
`route_requests` table is unchanged. -/
theorem sendRequest_rejected_when_seats_exceed (route : CarOwnerRoute)
    (requestedSeats : ℤ) (user : Option String) (msg : String)
    (insertFails : Bool) (reqs : List RouteRequestRow)
    (h : requestedSeats > route.seats_available) :
    handleSendRequest (some route) requestedSeats user msg insertFails reqs
      = (.seatsUnavailable, reqs) := by
  simp [handleSendRequest, h]

/-- A concrete route used by witnesses: 2 seats available. -/
def witnessRoute : CarOwnerRoute :=
  ⟨"route-1", "owner-1", 0, 0, 0, 0, 2, 10, none⟩

/-- C8 witness: requesting 5 of 2 available seats is rejected with the
table unchanged. -/
theorem sendRequest_rejected_witness :
    handleSendRequest (some witnessRoute) 5 (some "rider-1") "" false []
      = (.seatsUnavailable, []) :=
  sendRequest_rejected_when_seats_exceed witnessRoute 5 (some "rider-1")
    "" false [] (by decide)

/-- C6: with a valid session, a request for the public auth page
`/auth/signin` is answered with `next()` — it is not redirected to
`/dashboard` — because the public-path early return runs before the
session is consulted, making the dashboard-redirect branch unreachable
(contradicting the source's own comment above that branch). -/
theorem middleware_session_auth_page_not_redirected :
    middleware "/auth/signin" true = MiddlewareResult.next
      ∧ MiddlewareResult.next ≠ MiddlewareResult.redirect "/dashboard" := by
  exact ⟨rfl, by simp⟩

/-- C3 counterexample: starting from January 31, 2025, the code's monthly
end date is March 3, 2025 (JS `setMonth` overflows the nonexistent
February 31 into March), not January 31 plus one calendar month
(February 28, 2025). -/
theorem computeEndDate_jan31_not_calendar_month :
    computeEndDate "monthly" ⟨2025, 0, 31⟩ = ⟨2025, 2, 3⟩
      ∧ specEndDate "monthly" ⟨2025, 0, 31⟩ = ⟨2025, 1, 28⟩
      ∧ computeEndDate "monthly" ⟨2025, 0, 31⟩
          ≠ specEndDate "monthly" ⟨2025, 0, 31⟩ := by
  decide

/-- C3 amended: for a start instant whose day-of-month exists in the
target month, the computed end date agrees with calendar addition
(monthly = plus one calendar month, quarterly = plus three, yearly = plus
one year); the hypothesis excludes exactly the month-end starts (such as
January 31 monthly or February 29 yearly) on which JS `setMonth` /
`setFullYear` overflow into the following month. -/
theorem computeEndDate_eq_calendar_on_valid_days (planType : String)
    (T : JSDate)
    (hp : planType = "monthly" ∨ planType = "quarterly" ∨ planType = "yearly")
    (hm : T.month < 12)
    (hday : T.day ≤ daysInMonth (specEndDate planType T).year
        (specEndDate planType T).month) :
    computeEndDate planType T = specEndDate planType T := by
  obtain ⟨y, m, d⟩ := T
  rcases hp with hp | hp | hp <;> subst hp <;>
    simp only [computeEndDate, specEndDate, String.reduceEq, reduceIte,
      setMonthAdd, setFullYearAdd, normalizeJS, specPlusCalendarMonths,
      specPlusCalendarYears] at hm hday ⊢
  · have hy : y + (m + 1) / 12 = (y * 12 + m + 1) / 12 := by omega
    have hm12 : (m + 1) % 12 = (y * 12 + m + 1) % 12 := by omega
    rw [hy, hm12, if_pos hday, Nat.min_eq_left hday]
  · have hy : y + (m + 3) / 12 = (y * 12 + m + 3) / 12 := by omega
    have hm12 : (m + 3) % 12 = (y * 12 + m + 3) % 12 := by omega
    rw [hy, hm12, if_pos hday, Nat.min_eq_left hday]
  · have hy : y + 1 + m / 12 = y + 1 := by omega
    have hm12 : m % 12 = m := by omega
    rw [hy, hm12, if_pos hday, Nat.min_eq_left hday]

/-- C3 amended witness: March 15, 2025 plus one month is April 15, 2025
on both the code and the calendar reading. -/
theorem computeEndDate_eq_calendar_witness :
    computeEndDate "monthly" ⟨2025, 2, 15⟩ = specEndDate "monthly" ⟨2025, 2, 15⟩ :=
  computeEndDate_eq_calendar_on_valid_days "monthly" ⟨2025, 2, 15⟩
    (Or.inl rfl) (by decide) (by decide)

/-- Every path of the subscription-updated/deleted branch acknowledges
with `{received: true}` for its event type, whatever the database does. -/
lemma handleSubscriptionEvent_fst (mu : Option String) (st : String)
    (r : RetrievedSub) (et : String) (now : JSDate) (f : DBFaults)
    (db : DB) :
    (handleSubscriptionEvent mu st r et now f db).1 = .receivedResp et := by
  unfold handleSubscriptionEvent
  cases h : strTruthy mu
  · rfl
  · dsimp only
    split <;> rfl

/-- Every path of the `invoice.payment_succeeded` branch acknowledges
with `{received: true}`. -/
lemma handleInvoiceSucceeded_fst (sid : Option String) (r : RetrievedSub)
    (now : JSDate) (f : DBFaults) (db : DB) :
    (handleInvoiceSucceeded sid r now f db).1
      = .receivedResp "invoice.payment_succeeded" := by
  unfold handleInvoiceSucceeded
  cases h : strTruthy sid
  · rfl
  · dsimp only
    cases h2 : strTruthy r.metaUserId <;> rfl

/-- Every path of the `invoice.payment_failed` branch acknowledges with
`{received: true}`. -/
lemma handleInvoiceFailed_fst (sid mu : Option String) (f : DBFaults)
    (db : DB) :
    (handleInvoiceFailed sid mu f db).1
      = .receivedResp "invoice.payment_failed" := by
  unfold handleInvoiceFailed
  cases h : strTruthy sid
  · rfl
  · dsimp only
    cases h2 : strTruthy mu <;> rfl

/-- C4: when the webhook secret is configured but the request's signature
does not verify (including a missing signature header), the handler
responds 400 and the database is unchanged. -/
theorem webhook_bad_signature_400_no_writes (inp : WebhookInput) (db : DB)
    (hsec : inp.secretConfigured = true)
    (hval : inp.signatureValid = false) :
    (webhookPOST inp db).1.statusCode = 400
      ∧ (webhookPOST inp db).2 = db := by
  unfold webhookPOST
  cases hsp : inp.signaturePresent <;>
    simp [hsec, hval, hsp, WebhookResp.statusCode]

/-- C4 witness: a concrete invalid-signature request is rejected with 400
and leaves a one-row database unchanged. -/
theorem webhook_bad_signature_witness :
    (webhookPOST ⟨true, true, false, .otherEvent "evt", ⟨2025, 0, 15⟩,
        noFaults⟩
      ⟨[⟨"u1", "monthly", "active", ⟨2025, 0, 1⟩, ⟨2025, 1, 1⟩, 1⟩],
        []⟩).1.statusCode = 400
    ∧ (webhookPOST ⟨true, true, false, .otherEvent "evt", ⟨2025, 0, 15⟩,
        noFaults⟩
      ⟨[⟨"u1", "monthly", "active", ⟨2025, 0, 1⟩, ⟨2025, 1, 1⟩, 1⟩],
        []⟩).2
      = ⟨[⟨"u1", "monthly", "active", ⟨2025, 0, 1⟩, ⟨2025, 1, 1⟩, 1⟩], []⟩ :=
  webhook_bad_signature_400_no_writes _ _ rfl rfl

/-- C10: a `customer.subscription.updated` or `customer.subscription.deleted`
event whose subscription metadata carries no user id results in no
database change and still gets the `{received: true}` acknowledgment for
its event type. -/
theorem webhook_subscription_event_no_userId (inp : WebhookInput) (db : DB)
    (st : String) (r : RetrievedSub)
    (hsec : inp.secretConfigured = true)
    (hsig : inp.signaturePresent = true)
    (hval : inp.signatureValid = true)
    (he : inp.event = .customerSubscriptionUpdated none st r
        ∨ inp.event = .customerSubscriptionDeleted none st r) :
    (webhookPOST inp db).1 = .receivedResp inp.event.typeName
      ∧ (webhookPOST inp db).2 = db := by
  unfold webhookPOST
  rcases he with he | he <;>
    simp [hsec, hsig, hval, he, handleSubscriptionEvent, strTruthy,
      StripeEvent.typeName]

/-- C10 witness: a concrete subscription-updated event with empty
metadata leaves a one-row database unchanged and is acknowledged. -/
theorem webhook_subscription_event_no_userId_witness :
    (webhookPOST ⟨true, true, true,
        .customerSubscriptionUpdated none "active"
          ⟨none, none, none, none, none⟩, ⟨2025, 0, 15⟩, noFaults⟩
      ⟨[⟨"u1", "monthly", "active", ⟨2025, 0, 1⟩, ⟨2025, 1, 1⟩, 1⟩],
        []⟩).1
      = .receivedResp "customer.subscription.updated"
    ∧ (webhookPOST ⟨true, true, true,
        .customerSubscriptionUpdated none "active"
          ⟨none, none, none, none, none⟩, ⟨2025, 0, 15⟩, noFaults⟩
      ⟨[⟨"u1", "monthly", "active", ⟨2025, 0, 1⟩, ⟨2025, 1, 1⟩, 1⟩],
        []⟩).2
      = ⟨[⟨"u1", "monthly", "active", ⟨2025, 0, 1⟩, ⟨2025, 1, 1⟩, 1⟩], []⟩ :=
  webhook_subscription_event_no_userId _ _ "active"
    ⟨none, none, none, none, none⟩ rfl rfl rfl (Or.inl rfl)

/-- Whether an event falls in one of the three non-checkout branches
(`customer.subscription.updated`/`deleted`, `invoice.payment_succeeded`,
`invoice.payment_failed`). -/
def inSwallowingBranch : StripeEvent → Bool
  | .customerSubscriptionUpdated _ _ _ => true
  | .customerSubscriptionDeleted _ _ _ => true
  | .invoicePaymentSucceeded _ _ => true
  | .invoicePaymentFailed _ _ => true
  | _ => false

/-- C5: after successful signature verification, a database error on the
checkout-completion subscription write makes the handler return the 500
error response, while inside the other three event branches any
combination of database write errors is swallowed — the handler still
returns the `{received: true}` acknowledgment. -/
theorem webhook_db_error_propagation (inp : WebhookInput) (db : DB)
    (hsec : inp.secretConfigured = true)
    (hsig : inp.signaturePresent = true)
    (hval : inp.signatureValid = true) :
    (∀ s u, inp.event = .checkoutSessionCompleted s →
      s.mode = "subscription" → resolveUserId s = some u →
      inp.faults.subWrite = true →
      (webhookPOST inp db).1
        = .errorResp 500 "Failed to update subscription")
    ∧ (inSwallowingBranch inp.event = true →
      (webhookPOST inp db).1 = .receivedResp inp.event.typeName) := by
  constructor
  · intro s u he hm hu hf
    unfold webhookPOST handleCheckoutCompleted
    simp [hsec, hsig, hval, he, hm, hu, hf]
  · intro hb
    unfold webhookPOST
    cases hev : inp.event <;>
      simp only [hev, inSwallowingBranch, Bool.false_eq_true] at hb <;>
      simp [hsec, hsig, hval, hev, handleSubscriptionEvent_fst,
        handleInvoiceSucceeded_fst, handleInvoiceFailed_fst,
        StripeEvent.typeName]

/-- C5 witness: a checkout event whose subscription write errors yields
500, and an `invoice.payment_failed` event whose write errors is still
acknowledged. -/
theorem webhook_db_error_propagation_witness :
    (webhookPOST ⟨true, true, true,
        .checkoutSessionCompleted ⟨"subscription", some "u1", none,
          some "monthly", 5⟩, ⟨2025, 0, 15⟩,
        ⟨false, false, true, false, false, false, false, false⟩⟩
      ⟨[], []⟩).1
      = .errorResp 500 "Failed to update subscription"
    ∧ (webhookPOST ⟨true, true, true,
        .invoicePaymentFailed (some "sub_1") (some "u1"), ⟨2025, 0, 15⟩,
        ⟨false, false, false, false, false, false, false, true⟩⟩
      ⟨[], []⟩).1
      = .receivedResp "invoice.payment_failed" :=
  ⟨(webhook_db_error_propagation _ _ rfl rfl rfl).1
      ⟨"subscription", some "u1", none, some "monthly", 5⟩ "u1" rfl rfl
      rfl rfl,
    (webhook_db_error_propagation _ _ rfl rfl rfl).2 rfl⟩

lemma subsForUser_nil (u : String) : subsForUser [] u = [] := rfl

lemma subsForUser_cons (x : SubRow) (l : List SubRow) (u : String) :
    subsForUser (x :: l) u
      = if x.user_id == u then x :: subsForUser l u else subsForUser l u := by
  simp only [subsForUser, List.filter_cons]

lemma subsForUser_append (l1 l2 : List SubRow) (u : String) :
    subsForUser (l1 ++ l2) u = subsForUser l1 u ++ subsForUser l2 u := by
  simp [subsForUser, List.filter_append]

/-- Updating every row of user `u` with a user-id-preserving update
commutes with restricting to user `u`. -/
lemma subsForUser_map_update (u : String) (f : SubRow → SubRow)
    (hf : ∀ r, (f r).user_id = r.user_id) (l : List SubRow) :
    subsForUser (l.map fun r => if r.user_id == u then f r else r) u
      = (subsForUser l u).map f := by
  induction l with
  | nil => rfl
  | cons a t ih =>
    rw [List.map_cons]
    by_cases h : (a.user_id == u) = true
    · have h2 : ((f a).user_id == u) = true := by rw [hf a]; exact h
      rw [if_pos h, subsForUser_cons, subsForUser_cons, if_pos h,
        if_pos h2, ih, List.map_cons]
    · rw [if_neg h, subsForUser_cons, subsForUser_cons, if_neg h,
        if_neg h, ih]

/-- The subscription-table effect of the checkout-completion branch in
the fault-free case: with no existing row for the user, exactly the new
active row is inserted (table grows by one); with exactly one existing
row, that row is updated in place (table length unchanged). -/
lemma checkout_subs (s : CheckoutSession) (now : JSDate) (db : DB)
    (u : String) (hm : s.mode = "subscription")
    (hu : resolveUserId s = some u) :
    (subsForUser db.subscriptions u = [] →
      subsForUser (handleCheckoutCompleted s now noFaults db).2.subscriptions u
        = [⟨u, sessionPlanType s, "active", now,
            computeEndDate (sessionPlanType s) now, s.planPrice⟩]
      ∧ (handleCheckoutCompleted s now noFaults db).2.subscriptions.length
          = db.subscriptions.length + 1)
    ∧ (∀ r0, subsForUser db.subscriptions u = [r0] →
      subsForUser (handleCheckoutCompleted s now noFaults db).2.subscriptions u
        = [{ r0 with
              plan_type := sessionPlanType s
              status := "active"
              start_date := now
              end_date := computeEndDate (sessionPlanType s) now
              price := s.planPrice }]
      ∧ (handleCheckoutCompleted s now noFaults db).2.subscriptions.length
          = db.subscriptions.length) := by
  unfold handleCheckoutCompleted
  rw [if_pos hm, hu]
  cases hpe : profileExists db u <;>
  · simp only [noFaults, Bool.not_false, Bool.true_and, hpe,
      Bool.false_eq_true, Bool.true_eq_false, if_false, if_true, reduceIte]
    constructor
    · intro h0
      have hms : maybeSingleSub
          (insertProfile db ⟨u, "common_user"⟩).subscriptions u = none := by
        simp [maybeSingleSub, insertProfile, h0]
      have hms2 : maybeSingleSub db.subscriptions u = none := by
        simp [maybeSingleSub, h0]
      simp only [hms, hms2, Option.isSome_none, Bool.false_eq_true,
        if_false, reduceIte, insertSub, insertProfile, updateProfileType]
      rw [subsForUser_append, h0]
      refine ⟨by simp [subsForUser_cons, subsForUser_nil], by simp⟩
    · intro r0 hr
      have hms : maybeSingleSub
          (insertProfile db ⟨u, "common_user"⟩).subscriptions u
          = some r0 := by
        simp [maybeSingleSub, insertProfile, hr]
      have hms2 : maybeSingleSub db.subscriptions u = some r0 := by
        simp [maybeSingleSub, hr]
      simp only [hms, hms2, Option.isSome_some, if_true, reduceIte,
        updateSubs, insertProfile, updateProfileType]
      rw [subsForUser_map_update u (fun r =>
        { r with
          plan_type := sessionPlanType s
          status := "active"
          start_date := now
          end_date := computeEndDate (sessionPlanType s) now
          price := s.planPrice }) (fun r => rfl), hr]
      refine ⟨by simp, by simp⟩

/-- C2: for a verified fault-free checkout-completed event in
subscription mode resolving to user `u`: with no existing subscription
row for `u`, exactly one row is inserted and it has status `active` (the
table grows by one); with an existing row for `u`, that row is updated in
place and no duplicate is inserted (the table length is unchanged and
`u` still has exactly one row, now active). -/
theorem checkout_insert_or_update (inp : WebhookInput) (db : DB)
    (s : CheckoutSession) (u : String)
    (hsec : inp.secretConfigured = true)
    (hsig : inp.signaturePresent = true)
    (hval : inp.signatureValid = true)
    (he : inp.event = .checkoutSessionCompleted s)
    (hm : s.mode = "subscription")
    (hu : resolveUserId s = some u)
    (hf : inp.faults = noFaults) :
    (subsForUser db.subscriptions u = [] →
      subsForUser (webhookPOST inp db).2.subscriptions u
        = [⟨u, sessionPlanType s, "active", inp.now,
            computeEndDate (sessionPlanType s) inp.now, s.planPrice⟩]
      ∧ (webhookPOST inp db).2.subscriptions.length
          = db.subscriptions.length + 1)
    ∧ (∀ r0, subsForUser db.subscriptions u = [r0] →
      subsForUser (webhookPOST inp db).2.subscriptions u
        = [{ r0 with
              plan_type := sessionPlanType s
              status := "active"
              start_date := inp.now
              end_date := computeEndDate (sessionPlanType s) inp.now
              price := s.planPrice }]
      ∧ (webhookPOST inp db).2.subscriptions.length
          = db.subscriptions.length) := by
  have hw : webhookPOST inp db
      = handleCheckoutCompleted s inp.now noFaults db := by
    unfold webhookPOST
    simp [hsec, hsig, hval, he, hf]
  rw [hw]
  exact checkout_subs s inp.now db u hm hu

/-- A concrete checkout session used by the C2 witness. -/
def c2Session : CheckoutSession :=
  ⟨"subscription", some "u1", none, some "monthly", 5⟩

/-- A concrete webhook request used by the C2 witness. -/
def c2Input : WebhookInput :=
  ⟨true, true, true, .checkoutSessionCompleted c2Session, ⟨2025, 0, 15⟩,
    noFaults⟩

/-- C2 witness: on an empty database the concrete checkout event inserts
exactly one active monthly row for `u1`. -/
theorem checkout_insert_or_update_witness :
    subsForUser (webhookPOST c2Input ⟨[], []⟩).2.subscriptions "u1"
      = [⟨"u1", sessionPlanType c2Session, "active", ⟨2025, 0, 15⟩,
          computeEndDate (sessionPlanType c2Session) ⟨2025, 0, 15⟩, 5⟩]
    ∧ (webhookPOST c2Input ⟨[], []⟩).2.subscriptions.length
        = (⟨[], []⟩ : DB).subscriptions.length + 1 :=
  (checkout_insert_or_update c2Input ⟨[], []⟩ c2Session "u1" rfl rfl rfl
    rfl rfl rfl rfl).1 rfl

/-- A concrete checkout session whose metadata plan type is the empty
string, used by the C9 counterexample. -/
def c9Session : CheckoutSession := ⟨"subscription", some "u1", none, some "", 0⟩

/-- A concrete webhook request carrying `c9Session`. -/
def c9Input : WebhookInput :=
  ⟨true, true, true, .checkoutSessionCompleted c9Session, ⟨2025, 0, 15⟩,
    noFaults⟩

/-- C9 counterexample: a present-but-empty metadata plan type `""` is
neither missing nor one of monthly/quarterly/yearly, yet the handler
defaults it to `monthly` and writes an end date one month after the start
date — not a row with end date equal to the start date as the claim
states for every non-monthly/quarterly/yearly plan type. -/
theorem checkout_empty_planType_counterexample :
    c9Session.metaPlanType = some ""
    ∧ some "" ≠ (none : Option String)
    ∧ "" ∉ (["monthly", "quarterly", "yearly"] : List String)
    ∧ (webhookPOST c9Input ⟨[], []⟩).2.subscriptions
        = [⟨"u1", "monthly", "active", ⟨2025, 0, 15⟩, ⟨2025, 1, 15⟩, 0⟩] := by
  refine ⟨rfl, by simp, by decide, rfl⟩

/-- C9 amended: for any present and non-empty metadata plan type other
than monthly/quarterly/yearly (such as `weekly`), the checkout branch
still writes the subscription row with status `active` but with end date
equal to the start date; a missing or empty plan type (and only those)
defaults to `monthly`. -/
theorem checkout_unrecognized_planType (inp : WebhookInput) (db : DB)
    (s : CheckoutSession) (u : String) (pt : String)
    (hsec : inp.secretConfigured = true)
    (hsig : inp.signaturePresent = true)
    (hval : inp.signatureValid = true)
    (he : inp.event = .checkoutSessionCompleted s)
    (hm : s.mode = "subscription")
    (hu : resolveUserId s = some u)
    (hf : inp.faults = noFaults)
    (hpt : s.metaPlanType = some pt) (h0 : pt ≠ "")
    (h1 : pt ≠ "monthly") (h2 : pt ≠ "quarterly") (h3 : pt ≠ "yearly")
    (hempty : subsForUser db.subscriptions u = []) :
    subsForUser (webhookPOST inp db).2.subscriptions u
      = [⟨u, pt, "active", inp.now, inp.now, s.planPrice⟩]
    ∧ (∀ s2 : CheckoutSession,
        s2.metaPlanType = none ∨ s2.metaPlanType = some "" →
        sessionPlanType s2 = "monthly") := by
  have hplan : sessionPlanType s = pt := by
    simp [sessionPlanType, strTruthy, hpt, h0]
  have hend : computeEndDate pt inp.now = inp.now := by
    simp [computeEndDate, h1, h2, h3]
  have hw : webhookPOST inp db
      = handleCheckoutCompleted s inp.now noFaults db := by
    unfold webhookPOST
    simp [hsec, hsig, hval, he, hf]
  constructor
  · have hins := (checkout_subs s inp.now db u hm hu).1 hempty
    rw [hw, hins.1, hplan, hend]
  · rintro s2 (h | h) <;> simp [sessionPlanType, strTruthy, h]

/-- A concrete checkout session with plan type `weekly`, used by the C9
amended witness. -/
def c9wSession : CheckoutSession :=
  ⟨"subscription", some "u1", none, some "weekly", 5⟩

/-- A concrete webhook request carrying `c9wSession`. -/
def c9wInput : WebhookInput :=
  ⟨true, true, true, .checkoutSessionCompleted c9wSession, ⟨2025, 0, 15⟩,
    noFaults⟩

/-- C9 amended witness: the concrete `weekly` checkout writes an active
`weekly` row whose end date equals its start date. -/
theorem checkout_unrecognized_planType_witness :
    subsForUser (webhookPOST c9wInput ⟨[], []⟩).2.subscriptions "u1"
      = [⟨"u1", "weekly", "active", ⟨2025, 0, 15⟩, ⟨2025, 0, 15⟩, 5⟩] :=
  (checkout_unrecognized_planType c9wInput ⟨[], []⟩ c9wSession "u1"
    "weekly" rfl rfl rfl rfl rfl rfl rfl rfl (by decide) (by decide)
    (by decide) (by decide) rfl).1

end LeaseFlow
